import Mathlib

/-!
Shallow embedding of `src/yt-url.py` (YouTube URL search tool).

Strings are modelled as `List Char`.  The three regular expressions of
`_extract_first_video_id` all have the shape
`<literal lead><11 chars of [a-zA-Z0-9_-]><literal trail>`, so they are
embedded by a common matcher (`matchPatAt`) and a left-to-right scanner
(`scanFirst`) which returns the capture of the leftmost match — exactly
the value `re.findall(pattern, html)[0]` used by the source.
-/

namespace YtUrl

/-- The character class `[a-zA-Z0-9_-]` of the video-id patterns. -/
def isIdChar (c : Char) : Bool :=
  c.isAlpha || c.isDigit || c = '-' || c = '_'

/-- Strip a literal off the front of a string, returning the remainder. -/
def stripLit : List Char → List Char → Option (List Char)
  | [], s => some s
  | _ :: _, [] => none
  | a :: as, b :: bs => if a = b then stripLit as bs else none

/-- Consume exactly `n` identifier characters, returning them and the rest. -/
def takeIds : Nat → List Char → Option (List Char × List Char)
  | 0, s => some ([], s)
  | _ + 1, [] => none
  | n + 1, c :: s =>
    if isIdChar c then
      match takeIds n s with
      | some (ids, rest) => some (c :: ids, rest)
      | none => none
    else none

/-- Try to match `<lead><11 id chars><trail>` at the front of `s`;
on success return the 11 captured characters. -/
def matchPatAt (lead trail s : List Char) : Option (List Char) :=
  match stripLit lead s with
  | none => none
  | some s1 =>
    match takeIds 11 s1 with
    | none => none
    | some (ids, s2) =>
      match stripLit trail s2 with
      | none => none
      | some _ => some ids

/-- Leftmost match of the pattern in the string: the capture returned by
`re.findall(pattern, html)[0]` when the match list is nonempty. -/
def scanFirst (lead trail : List Char) : List Char → Option (List Char)
  | [] => none
  | c :: rest =>
    match matchPatAt lead trail (c :: rest) with
    | some ids => some ids
    | none => scanFirst lead trail rest

/-- Lead of pattern 1: `"videoId":"([a-zA-Z0-9_-]{11})"`. -/
def pat1Lead : List Char := "\"videoId\":\"".data

/-- Trail of pattern 1: the closing quote. -/
def pat1Trail : List Char := "\"".data

/-- Lead of pattern 2: `watch\?v=([a-zA-Z0-9_-]{11})`. -/
def pat2Lead : List Char := "watch?v=".data

/-- Lead of pattern 3: `/watch\?v=([a-zA-Z0-9_-]{11})`. -/
def pat3Lead : List Char := "/watch?v=".data

/-- Embedding of `YouTubeSearcher._extract_first_video_id`: try the three patterns in
order and return the first match of the first pattern having any match. -/
def extract_first_video_id (html : List Char) : Option (List Char) :=
  match scanFirst pat1Lead pat1Trail html with
  | some ids => some ids
  | none =>
    match scanFirst pat2Lead [] html with
    | some ids => some ids
    | none => scanFirst pat3Lead [] html

/-- The same extractor restricted to the first two patterns (comparator
for the refinement claim about the redundant third pattern). -/
def extractTwoPatterns (html : List Char) : Option (List Char) :=
  match scanFirst pat1Lead pat1Trail html with
  | some ids => some ids
  | none => scanFirst pat2Lead [] html

/-! ### URL construction (`urllib.parse.urlencode` with `quote_plus`) -/

/-- The always-safe bytes of `urllib.parse.quote`: ASCII letters, digits
and `_ . - ~`. -/
def isAlwaysSafe (b : Nat) : Bool :=
  decide ((65 ≤ b ∧ b ≤ 90) ∨ (97 ≤ b ∧ b ≤ 122) ∨ (48 ≤ b ∧ b ≤ 57) ∨
    b = 95 ∨ b = 46 ∨ b = 45 ∨ b = 126)

/-- Uppercase hex digit for `n < 16`, as used in `%XX` escapes. -/
def hexUpper (n : Nat) : Char :=
  if n < 10 then Char.ofNat (48 + n) else Char.ofNat (55 + n)

/-- Percent-escape of one byte. -/
def pctEncodeByte (b : Nat) : List Char :=
  ['%', hexUpper (b / 16), hexUpper (b % 16)]

/-- Embedding of `urllib.parse.quote` on one byte with `safe=''`. -/
def quoteByte (b : Nat) : List Char :=
  if isAlwaysSafe b then [Char.ofNat b] else pctEncodeByte b

/-- UTF-8 encoding of one character, as a list of byte values. -/
def utf8Bytes (c : Char) : List Nat :=
  let n := c.toNat
  if n < 128 then [n]
  else if n < 2048 then [192 + n / 64, 128 + n % 64]
  else if n < 65536 then [224 + n / 4096, 128 + (n / 64) % 64, 128 + n % 64]
  else [240 + n / 262144, 128 + (n / 4096) % 64, 128 + (n / 64) % 64, 128 + n % 64]

/-- Embedding of `urllib.parse.quote_plus` with `safe=''`: spaces become `+`, every
other character is quoted byte-by-byte over its UTF-8 encoding. -/
def quote_plus (s : List Char) : List Char :=
  s.flatMap fun c => if c = ' ' then ['+'] else (utf8Bytes c).flatMap quoteByte

/-- Embedding of `urllib.parse.urlencode` for the single pair used by the source. -/
def urlencodePair (k v : List Char) : List Char :=
  quote_plus k ++ '=' :: quote_plus v

def BASE_SEARCH_URL : List Char := "https://www.youtube.com/results".data

def BASE_VIDEO_URL : List Char := "https://www.youtube.com/watch".data

/-- Embedding of `YouTubeSearcher._build_search_url`. -/
def build_search_url (query : List Char) : List Char :=
  BASE_SEARCH_URL ++ '?' :: urlencodePair "search_query".data query

/-- Embedding of `YouTubeSearcher._build_video_url`. -/
def build_video_url (video_id : List Char) : List Char :=
  BASE_VIDEO_URL ++ "?v=".data ++ video_id

/-! ### The searcher and `search` -/

/-- Python whitespace, the characters stripped by `str.strip()`: the ASCII
whitespace U+0009–U+000D and U+0020, the file/group/record/unit separators
U+001C–U+001F, NEL U+0085, NBSP U+00A0, OGHAM SPACE MARK U+1680, the Unicode
spaces U+2000–U+200A, LINE/PARAGRAPH SEPARATOR U+2028/U+2029, NARROW NBSP
U+202F, MEDIUM MATHEMATICAL SPACE U+205F and IDEOGRAPHIC SPACE U+3000. -/
def isPySpace (c : Char) : Bool :=
  decide ((9 ≤ c.toNat ∧ c.toNat ≤ 13) ∨ (28 ≤ c.toNat ∧ c.toNat ≤ 31) ∨
    c.toNat = 32 ∨ c.toNat = 133 ∨ c.toNat = 160 ∨ c.toNat = 5760 ∨
    (8192 ≤ c.toNat ∧ c.toNat ≤ 8202) ∨ c.toNat = 8232 ∨ c.toNat = 8233 ∨
    c.toNat = 8239 ∨ c.toNat = 8287 ∨ c.toNat = 12288)

/-- Embedding of `not query.strip()`: the query is empty or whitespace-only. -/
def strippedEmpty (query : List Char) : Bool :=
  query.all isPySpace

/-- The searcher object: its only state is the header dictionary set by
`YouTubeSearcher.__init__`. -/
structure YouTubeSearcher where
  session_headers : List (List Char × List Char)
deriving DecidableEq

/-- The fixed desktop-browser User-Agent value. -/
def userAgentValue : List Char :=
  ("Mozilla/5.0 (Windows NT 10.0; Win64; x64) " ++
   "AppleWebKit/537.36 (KHTML, like Gecko) " ++
   "Chrome/91.0.4472.124 Safari/537.36").data

/-- Embedding of `YouTubeSearcher.__init__`. -/
def initSearcher : YouTubeSearcher :=
  ⟨[("User-Agent".data, userAgentValue)]⟩

/-- The network oracle standing for `_fetch_page`: given the URL and the
request headers it either returns the decoded page text or fails with the
message of the raised exception (network error, timeout, decode error). -/
def Fetch : Type :=
  List Char → List (List Char × List Char) → Except (List Char) (List Char)

def emptyQueryMsg : List Char := "Search query cannot be empty".data

def noResultsMsg : List Char :=
  "No video results found for the given search query".data

/-- The `except Exception` boundary of `search`: re-raise with context. -/
def searchFailedWrap (e : List Char) : List Char :=
  "Search failed: ".data ++ e

/-- Embedding of `YouTubeSearcher.search`, with an explicit trace of the URLs fetched
(third component) and explicit threading of the searcher object (second
component).  Any failure inside the `try` block — a fetch failure or the
no-results failure of `_extract_first_video_id` — is wrapped by
`searchFailedWrap`; the empty-query failure is raised before the `try`. -/
def search (st : YouTubeSearcher) (fetch : Fetch) (query : List Char) :
    Except (List Char) (List Char) × YouTubeSearcher × List (List Char) :=
  if strippedEmpty query then
    (Except.error emptyQueryMsg, st, [])
  else
    let url := build_search_url query
    match fetch url st.session_headers with
    | Except.error e => (Except.error (searchFailedWrap e), st, [url])
    | Except.ok html =>
      match extract_first_video_id html with
      | none => (Except.error (searchFailedWrap noResultsMsg), st, [url])
      | some video_id => (Except.ok (build_video_url video_id), st, [url])

/-! ### The CLI `main` -/

/-- Outcome of the `searcher.search(args.query)` call as seen by `main`:
either a URL, or one of the exception classes `main` distinguishes. -/
inductive SearchCallResult where
  | ok (url : List Char)
  | ytError (msg : List Char)
  | keyboardInterrupt
  | unexpected (msg : List Char)
deriving DecidableEq

/-- Embedding of `main`: exit code, stdout lines, stderr lines. -/
def mainEntry (verbose : Bool) (query : List Char) (r : SearchCallResult) :
    Nat × List (List Char) × List (List Char) :=
  let pre := if verbose then ["Searching for: ".data ++ query] else []
  match r with
  | SearchCallResult.ok url => (0, [url], pre)
  | SearchCallResult.ytError m => (1, [], pre ++ ["Error: ".data ++ m])
  | SearchCallResult.keyboardInterrupt =>
      (1, [], pre ++ ['\n' :: "Search cancelled by user".data])
  | SearchCallResult.unexpected m =>
      (1, [], pre ++ ["Unexpected error: ".data ++ m])

/-- Characters that may appear in the encoded query value: unreserved
characters of the safe set, `+`, `%`, and (uppercase hex) digits are all
inside this set, so the resulting URL is well-formed. -/
def isUrlOkChar (c : Char) : Bool :=
  decide ((65 ≤ c.toNat ∧ c.toNat ≤ 90) ∨ (97 ≤ c.toNat ∧ c.toNat ≤ 122) ∨
    (48 ≤ c.toNat ∧ c.toNat ≤ 57) ∨ c.toNat = 95 ∨ c.toNat = 46 ∨
    c.toNat = 45 ∨ c.toNat = 126 ∨ c.toNat = 43 ∨ c.toNat = 37)

/-! ### Lemmas about the pattern scanner -/

lemma matchPatAt_nil (lead trail : List Char) : matchPatAt lead trail [] = none := by
  cases lead with
  | nil => simp [matchPatAt, stripLit, takeIds]
  | cons a as => simp [matchPatAt, stripLit]

lemma takeIds_some : ∀ (n : Nat) (s ids rest : List Char),
    takeIds n s = some (ids, rest) →
    ids.length = n ∧ ids.all isIdChar = true ∧ s = ids ++ rest := by
  intro n
  induction n with
  | zero =>
    intro s ids rest h
    simp only [takeIds, Option.some.injEq, Prod.mk.injEq] at h
    obtain ⟨h1, h2⟩ := h
    subst h1; subst h2
    simp
  | succ n ih =>
    intro s ids rest h
    cases s with
    | nil => simp [takeIds] at h
    | cons c s' =>
      simp only [takeIds] at h
      by_cases hc : isIdChar c
      · rw [if_pos hc] at h
        cases hk : takeIds n s' with
        | none => rw [hk] at h; simp at h
        | some p =>
          obtain ⟨ids', rest'⟩ := p
          rw [hk] at h
          simp only [Option.some.injEq, Prod.mk.injEq] at h
          obtain ⟨h1, h2⟩ := h
          obtain ⟨hl, ha, hs⟩ := ih s' ids' rest' hk
          subst h1; subst h2; subst hs
          refine ⟨by simp [hl], ?_, by simp⟩
          simp [List.all_cons, hc, ha]
      · rw [if_neg hc] at h; simp at h

lemma stripLit_nil (s : List Char) : stripLit [] s = some s := rfl

lemma stripLit_self : ∀ (l s : List Char), stripLit l (l ++ s) = some s := by
  intro l
  induction l with
  | nil => intro s; rfl
  | cons a as ih => intro s; simp [stripLit, ih]

lemma takeIds_append : ∀ (n : Nat) (run post : List Char),
    run.all isIdChar = true → n ≤ run.length →
    takeIds n (run ++ post) = some (run.take n, run.drop n ++ post) := by
  intro n
  induction n with
  | zero => intro run post _ _; simp [takeIds]
  | succ n ih =>
    intro run post hall hlen
    cases run with
    | nil => simp at hlen
    | cons c run' =>
      simp only [List.all_cons, Bool.and_eq_true] at hall
      obtain ⟨hc, hall'⟩ := hall
      have hrec := ih run' post hall' (by simpa using hlen)
      simp only [List.cons_append, takeIds, if_pos hc, List.append_eq, hrec]
      simp

lemma matchPatAt_some (lead trail s ids : List Char)
    (h : matchPatAt lead trail s = some ids) :
    ids.length = 11 ∧ ids.all isIdChar = true := by
  unfold matchPatAt at h
  split at h
  · simp at h
  · rename_i s1 h1
    split at h
    · simp at h
    · rename_i p ids' s2 h2
      split at h
      · simp at h
      · simp only [Option.some.injEq] at h
        subst h
        have hp := takeIds_some 11 s1 ids' s2 h2
        exact ⟨hp.1, hp.2.1⟩

lemma scanFirst_some : ∀ (html lead trail ids : List Char),
    scanFirst lead trail html = some ids →
    ∃ s, matchPatAt lead trail s = some ids := by
  intro html
  induction html with
  | nil => intro lead trail ids h; simp [scanFirst] at h
  | cons c rest ih =>
    intro lead trail ids h
    simp only [scanFirst] at h
    cases hm : matchPatAt lead trail (c :: rest) with
    | some ids' =>
      rw [hm] at h
      simp only [Option.some.injEq] at h
      subst h
      exact ⟨c :: rest, hm⟩
    | none =>
      rw [hm] at h
      exact ih lead trail ids h

lemma scanFirst_leftmost : ∀ (html : List Char) (i : Nat)
    (ids lead trail : List Char),
    (∀ j, j < i → matchPatAt lead trail (html.drop j) = none) →
    matchPatAt lead trail (html.drop i) = some ids →
    scanFirst lead trail html = some ids := by
  intro html
  induction html with
  | nil =>
    intro i ids lead trail _ hi
    rw [List.drop_nil, matchPatAt_nil] at hi
    exact absurd hi (by simp)
  | cons c rest ih =>
    intro i ids lead trail hnone hi
    cases i with
    | zero =>
      rw [List.drop_zero] at hi
      simp only [scanFirst]
      rw [hi]
    | succ j =>
      have h0 : matchPatAt lead trail (c :: rest) = none := by
        simpa using hnone 0 (Nat.succ_pos j)
      simp only [scanFirst]
      rw [h0]
      refine ih j ids lead trail (fun k hk => ?_) (by simpa using hi)
      simpa using hnone (k + 1) (Nat.succ_lt_succ hk)

lemma scanFirst_eq_none_iff : ∀ (html lead trail : List Char),
    scanFirst lead trail html = none ↔
      ∀ i, matchPatAt lead trail (html.drop i) = none := by
  intro html
  induction html with
  | nil =>
    intro lead trail
    simp [scanFirst, List.drop_nil, matchPatAt_nil]
  | cons c rest ih =>
    intro lead trail
    constructor
    · intro h i
      simp only [scanFirst] at h
      cases hm : matchPatAt lead trail (c :: rest) with
      | some ids => rw [hm] at h; simp at h
      | none =>
        rw [hm] at h
        cases i with
        | zero => simpa using hm
        | succ j =>
          rw [List.drop_succ_cons]
          exact (ih lead trail).1 h j
    · intro h
      simp only [scanFirst]
      have h0 := h 0
      rw [List.drop_zero] at h0
      rw [h0]
      refine (ih lead trail).2 (fun j => ?_)
      simpa [List.drop_succ_cons] using h (j + 1)

lemma matchPatAt_cons (c : Char) (lead trail s ids : List Char)
    (h : matchPatAt (c :: lead) trail s = some ids) :
    ∃ s', s = c :: s' ∧ matchPatAt lead trail s' = some ids := by
  cases s with
  | nil => rw [matchPatAt_nil] at h; exact absurd h (by simp)
  | cons b bs =>
    unfold matchPatAt at h
    simp only [stripLit] at h
    by_cases hcb : c = b
    · subst hcb
      rw [if_pos rfl] at h
      exact ⟨bs, rfl, by unfold matchPatAt; exact h⟩
    · rw [if_neg hcb] at h
      simp at h

lemma pat3Lead_eq : pat3Lead = '/' :: pat2Lead := by decide

lemma scanFirst_pat3_none (html : List Char)
    (h2 : scanFirst pat2Lead [] html = none) :
    scanFirst pat3Lead [] html = none := by
  rw [scanFirst_eq_none_iff] at h2 ⊢
  intro i
  cases hm : matchPatAt pat3Lead [] (html.drop i) with
  | none => rfl
  | some ids =>
    exfalso
    rw [pat3Lead_eq] at hm
    obtain ⟨s', hs', hm'⟩ := matchPatAt_cons '/' pat2Lead [] (html.drop i) ids hm
    have hdrop : html.drop (i + 1) = s' := by
      rw [← List.tail_drop, hs']
      rfl
    have hnone := h2 (i + 1)
    rw [hdrop, hm'] at hnone
    simp at hnone

/-! ### Lemmas about the extractor and `search` -/

lemma extract_some_props (html ids : List Char)
    (h : extract_first_video_id html = some ids) :
    ids.length = 11 ∧ ids.all isIdChar = true := by
  unfold extract_first_video_id at h
  cases h1 : scanFirst pat1Lead pat1Trail html with
  | some x =>
    rw [h1] at h
    simp only [Option.some.injEq] at h
    subst h
    obtain ⟨s, hs⟩ := scanFirst_some html pat1Lead pat1Trail x h1
    exact matchPatAt_some _ _ _ _ hs
  | none =>
    rw [h1] at h
    cases h2 : scanFirst pat2Lead [] html with
    | some x =>
      rw [h2] at h
      simp only [Option.some.injEq] at h
      subst h
      obtain ⟨s, hs⟩ := scanFirst_some html pat2Lead [] x h2
      exact matchPatAt_some _ _ _ _ hs
    | none =>
      rw [h2] at h
      obtain ⟨s, hs⟩ := scanFirst_some html pat3Lead [] ids h
      exact matchPatAt_some _ _ _ _ hs

lemma search_empty (st : YouTubeSearcher) (fetch : Fetch) (query : List Char)
    (hq : strippedEmpty query = true) :
    search st fetch query = (Except.error emptyQueryMsg, st, []) := by
  simp [search, hq]

lemma search_fetch_error (st : YouTubeSearcher) (fetch : Fetch) (query e : List Char)
    (hq : strippedEmpty query = false)
    (hf : fetch (build_search_url query) st.session_headers = Except.error e) :
    search st fetch query
      = (Except.error (searchFailedWrap e), st, [build_search_url query]) := by
  simp [search, hq, hf]

lemma search_no_results (st : YouTubeSearcher) (fetch : Fetch) (query html : List Char)
    (hq : strippedEmpty query = false)
    (hf : fetch (build_search_url query) st.session_headers = Except.ok html)
    (he : extract_first_video_id html = none) :
    search st fetch query
      = (Except.error (searchFailedWrap noResultsMsg), st, [build_search_url query]) := by
  simp [search, hq, hf, he]

lemma search_ok (st : YouTubeSearcher) (fetch : Fetch) (query html ids : List Char)
    (hq : strippedEmpty query = false)
    (hf : fetch (build_search_url query) st.session_headers = Except.ok html)
    (he : extract_first_video_id html = some ids) :
    search st fetch query
      = (Except.ok (build_video_url ids), st, [build_search_url query]) := by
  simp [search, hq, hf, he]

lemma search_trace (st : YouTubeSearcher) (fetch : Fetch) (query : List Char)
    (hq : strippedEmpty query = false) :
    (search st fetch query).2.2 = [build_search_url query] := by
  cases hf : fetch (build_search_url query) st.session_headers with
  | error e => rw [search_fetch_error st fetch query e hq hf]
  | ok html =>
    cases he : extract_first_video_id html with
    | none => rw [search_no_results st fetch query html hq hf he]
    | some ids => rw [search_ok st fetch query html ids hq hf he]

lemma search_state (st : YouTubeSearcher) (fetch : Fetch) (query : List Char) :
    (search st fetch query).2.1 = st := by
  by_cases hq : strippedEmpty query
  · rw [search_empty st fetch query hq]
  · rw [Bool.not_eq_true] at hq
    cases hf : fetch (build_search_url query) st.session_headers with
    | error e => rw [search_fetch_error st fetch query e hq hf]
    | ok html =>
      cases he : extract_first_video_id html with
      | none => rw [search_no_results st fetch query html hq hf he]
      | some ids => rw [search_ok st fetch query html ids hq hf he]

/-! ### Lemmas about the URL encoding -/

lemma char_toNat_lt (c : Char) : c.toNat < 1114112 := by
  have h : c.toNat < 55296 ∨ (57344 ≤ c.toNat ∧ c.toNat < 1114112) := c.valid
  omega

lemma utf8Bytes_lt (c : Char) : ∀ b ∈ utf8Bytes c, b < 256 := by
  intro b hb
  have hc := char_toNat_lt c
  simp only [utf8Bytes] at hb
  split_ifs at hb with h1 h2 h3
  · simp only [List.mem_cons, List.not_mem_nil, or_false] at hb
    omega
  · simp only [List.mem_cons, List.not_mem_nil, or_false] at hb
    rcases hb with rfl | rfl <;> omega
  · simp only [List.mem_cons, List.not_mem_nil, or_false] at hb
    rcases hb with rfl | rfl | rfl <;> omega
  · simp only [List.mem_cons, List.not_mem_nil, or_false] at hb
    rcases hb with rfl | rfl | rfl | rfl <;> omega

set_option maxRecDepth 4000 in
lemma safeByte_ok : ∀ b, b < 256 →
    (isAlwaysSafe b = true → isUrlOkChar (Char.ofNat b) = true) := by decide

lemma hexUpper_ok : ∀ n, n < 16 → isUrlOkChar (hexUpper n) = true := by decide

lemma quoteByte_ok (b : Nat) (hb : b < 256) :
    (quoteByte b).all isUrlOkChar = true := by
  unfold quoteByte
  split_ifs with h
  · simp [safeByte_ok b hb h]
  · unfold pctEncodeByte
    simp only [List.all_cons, Bool.and_eq_true, List.all_nil]
    exact ⟨by decide, hexUpper_ok _ (by omega), hexUpper_ok _ (by omega), trivial⟩

lemma quote_plus_ok (query : List Char) :
    (quote_plus query).all isUrlOkChar = true := by
  unfold quote_plus
  rw [List.all_eq_true]
  intro x hx
  rw [List.mem_flatMap] at hx
  obtain ⟨c, _, hxc⟩ := hx
  split_ifs at hxc with hc
  · simp only [List.mem_cons, List.not_mem_nil, or_false] at hxc
    subst hxc
    decide
  · rw [List.mem_flatMap] at hxc
    obtain ⟨b, hbmem, hxq⟩ := hxc
    have hb := utf8Bytes_lt c b hbmem
    have := quoteByte_ok b hb
    rw [List.all_eq_true] at this
    exact this x hxq

/-! ### The claims -/

/-- C1: for every page content from which an identifier is successfully
extracted, `search` returns exactly `BASE_VIDEO_URL ++ "?v=" ++ id` for the
extracted identifier `id`, and `id` is exactly 11 characters long, each
from the alphabet of ASCII letters, digits, `-` and `_`. -/
theorem claim_C1 (html ids : List Char)
    (hex : extract_first_video_id html = some ids) :
    (ids.length = 11 ∧ ids.all isIdChar = true) ∧
    ∀ (st : YouTubeSearcher) (fetch : Fetch) (query : List Char),
      strippedEmpty query = false →
      fetch (build_search_url query) st.session_headers = Except.ok html →
      (search st fetch query).1
        = Except.ok (BASE_VIDEO_URL ++ "?v=".data ++ ids) := by
  refine ⟨extract_some_props html ids hex, ?_⟩
  intro st fetch query hq hf
  rw [search_ok st fetch query html ids hq hf hex]
  rfl

/-- Witness for C1 at a concrete page, query and fetch oracle. -/
theorem claim_C1_witness :
    ("dQw4w9WgXcQ".data.length = 11 ∧
      "dQw4w9WgXcQ".data.all isIdChar = true) ∧
    (search initSearcher
        (fun _ _ => Except.ok "ab\"videoId\":\"dQw4w9WgXcQ\"cd".data)
        "cats".data).1
      = Except.ok (BASE_VIDEO_URL ++ "?v=".data ++ "dQw4w9WgXcQ".data) := by
  have h := claim_C1 "ab\"videoId\":\"dQw4w9WgXcQ\"cd".data
    "dQw4w9WgXcQ".data (by decide)
  exact ⟨h.1, h.2 initSearcher _ "cats".data (by decide) rfl⟩

/-- C2: extraction returns the leftmost match of the first pattern that has
any match: a leftmost JSON-style `"videoId":"…"` match wins regardless of
any `watch?v=` matches (even earlier ones), and when the JSON-style pattern
has no match at all, the leftmost `watch?v=` match is returned. -/
theorem claim_C2 (html : List Char) :
    (∀ i ids,
      (∀ j, j < i → matchPatAt pat1Lead pat1Trail (html.drop j) = none) →
      matchPatAt pat1Lead pat1Trail (html.drop i) = some ids →
      extract_first_video_id html = some ids) ∧
    (scanFirst pat1Lead pat1Trail html = none →
      ∀ i ids,
        (∀ j, j < i → matchPatAt pat2Lead [] (html.drop j) = none) →
        matchPatAt pat2Lead [] (html.drop i) = some ids →
        extract_first_video_id html = some ids) := by
  constructor
  · intro i ids hj hi
    have h1 := scanFirst_leftmost html i ids pat1Lead pat1Trail hj hi
    unfold extract_first_video_id
    rw [h1]
  · intro h1 i ids hj hi
    have h2 := scanFirst_leftmost html i ids pat2Lead [] hj hi
    unfold extract_first_video_id
    rw [h1, h2]

/-- Witness for C2: a later JSON-style match beats an earlier `watch?v=`
match, and with no JSON-style match the leftmost `watch?v=` match wins. -/
theorem claim_C2_witness :
    extract_first_video_id
        "watch?v=ABCDEFGHIJK \"videoId\":\"dQw4w9WgXcQ\"".data
      = some "dQw4w9WgXcQ".data ∧
    extract_first_video_id
        "zz watch?v=abc12345678 watch?v=XXXXXXXXXXX".data
      = some "abc12345678".data := by
  constructor
  · exact (claim_C2 _).1 20 _ (by decide) (by decide)
  · exact (claim_C2 _).2 (by decide) 3 _ (by decide) (by decide)

/-- C3: for every query whose trimmed form is empty, `search` fails with the
empty-query message before any network access (the fetch trace is empty),
and this failure is not of the wrapped `Search failed: …` shape. -/
theorem claim_C3 (st : YouTubeSearcher) (fetch : Fetch) (query : List Char)
    (hq : strippedEmpty query = true) :
    search st fetch query = (Except.error emptyQueryMsg, st, []) ∧
    ∀ e, emptyQueryMsg ≠ searchFailedWrap e := by
  refine ⟨search_empty st fetch query hq, ?_⟩
  intro e heq
  have h2 := congrArg (fun l => List.take ("Search failed: ".data.length) l) heq
  simp only [searchFailedWrap, List.take_left] at h2
  exact absurd h2 (by decide)

/-- Witness for C3 at a space-only query and at a query made of the
non-ASCII blanks U+001C and U+00A0, with a failing fetch oracle (whose
error could only surface if the fetch were consulted). -/
theorem claim_C3_witness :
    search initSearcher (fun _ _ => Except.error "boom".data) "  ".data
      = (Except.error emptyQueryMsg, initSearcher, []) ∧
    search initSearcher (fun _ _ => Except.error "boom".data)
        [Char.ofNat 28, Char.ofNat 160]
      = (Except.error emptyQueryMsg, initSearcher, []) ∧
    emptyQueryMsg ≠ searchFailedWrap "boom".data :=
  ⟨(claim_C3 initSearcher (fun _ _ => Except.error "boom".data) "  ".data
      (by decide)).1,
   (claim_C3 initSearcher (fun _ _ => Except.error "boom".data)
      [Char.ofNat 28, Char.ofNat 160] (by decide)).1,
   (claim_C3 initSearcher (fun _ _ => Except.error "boom".data) "  ".data
      (by decide)).2 "boom".data⟩

/-- C4 counterexample: when no pattern matches, the failure escaping
`search` is the wrapped `Search failed: No video results found …` message —
the no-results failure is raised inside the `try` block and re-wrapped at
the boundary like every other failure, so it is not distinct from the
`SearchFailed` wrapping. -/
theorem claim_C4_counterexample :
    (search initSearcher
        (fun _ _ => Except.ok "<html>no ids here</html>".data)
        "cats".data).1
      = Except.error (searchFailedWrap noResultsMsg) ∧
    searchFailedWrap noResultsMsg ≠ noResultsMsg := by
  exact ⟨rfl, by decide⟩

/-- C4 (amended): for every non-empty query and fetched page in which no
identifier pattern matches, `search` fails with the distinct no-results
message, wrapped at the pipeline boundary into the `Search failed: …`
form. -/
theorem claim_C4_amended (st : YouTubeSearcher) (fetch : Fetch)
    (query html : List Char)
    (hq : strippedEmpty query = false)
    (hf : fetch (build_search_url query) st.session_headers = Except.ok html)
    (he : extract_first_video_id html = none) :
    (search st fetch query).1
      = Except.error (searchFailedWrap noResultsMsg) := by
  rw [search_no_results st fetch query html hq hf he]

/-- Witness for the amended C4 at a concrete page with no matches. -/
theorem claim_C4_amended_witness :
    (search initSearcher (fun _ _ => Except.ok "<p>hello</p>".data)
        "dogs".data).1
      = Except.error (searchFailedWrap noResultsMsg) :=
  claim_C4_amended initSearcher _ "dogs".data "<p>hello</p>".data
    (by decide) rfl (by decide)

/-- C5: for every non-empty query, a fetch failure is re-raised as
`Search failed: <original message>` (the original message is preserved as a
suffix), an extraction failure is re-raised the same way, and the fetch is
performed exactly once (no retry, no swallowed failure). -/
theorem claim_C5 (st : YouTubeSearcher) (fetch : Fetch) (query : List Char)
    (hq : strippedEmpty query = false) :
    (∀ e, fetch (build_search_url query) st.session_headers = Except.error e →
      (search st fetch query).1 = Except.error (searchFailedWrap e) ∧
      ∃ p, p ++ e = searchFailedWrap e) ∧
    (∀ html,
      fetch (build_search_url query) st.session_headers = Except.ok html →
      extract_first_video_id html = none →
      (search st fetch query).1
        = Except.error (searchFailedWrap noResultsMsg)) ∧
    (search st fetch query).2.2 = [build_search_url query] := by
  refine ⟨?_, ?_, search_trace st fetch query hq⟩
  · intro e hf
    rw [search_fetch_error st fetch query e hq hf]
    exact ⟨rfl, "Search failed: ".data, rfl⟩
  · intro html hf he
    rw [search_no_results st fetch query html hq hf he]

/-- Witness for C5 at a concrete timeout failure and a concrete no-match
page. -/
theorem claim_C5_witness :
    (search initSearcher (fun _ _ => Except.error "timed out".data)
        "dogs".data).1
      = Except.error (searchFailedWrap "timed out".data) ∧
    (search initSearcher (fun _ _ => Except.error "timed out".data)
        "dogs".data).2.2
      = [build_search_url "dogs".data] ∧
    (search initSearcher (fun _ _ => Except.ok "nope".data) "dogs".data).1
      = Except.error (searchFailedWrap noResultsMsg) :=
  ⟨((claim_C5 initSearcher (fun _ _ => Except.error "timed out".data)
      "dogs".data (by decide)).1 "timed out".data rfl).1,
   (claim_C5 initSearcher (fun _ _ => Except.error "timed out".data)
      "dogs".data (by decide)).2.2,
   (claim_C5 initSearcher (fun _ _ => Except.ok "nope".data)
      "dogs".data (by decide)).2.1 "nope".data rfl (by decide)⟩

/-- C6 counterexample: `urlencode` uses `quote_plus`, so a space in the
query is encoded as `+`, not percent-encoded: for the query `a b` the
constructed URL is `…?search_query=a+b`, not `…?search_query=a%20b`. -/
theorem claim_C6_counterexample :
    build_search_url "a b".data
      = "https://www.youtube.com/results?search_query=a+b".data ∧
    build_search_url "a b".data
      ≠ "https://www.youtube.com/results?search_query=a%20b".data := by
  constructor <;> decide

/-- C6 (amended): the constructed search URL is the fixed endpoint followed
by `?search_query=` and the form-encoding of the query, in which spaces
become `+` and every other reserved character is percent-encoded: every
character of the encoded value is an unreserved character, `+`, or part of
a `%XX` escape, so the URL is well-formed. -/
theorem claim_C6_amended (query : List Char) :
    build_search_url query
      = BASE_SEARCH_URL ++ '?' :: ("search_query=".data ++ quote_plus query) ∧
    (quote_plus query).all isUrlOkChar = true := by
  refine ⟨?_, quote_plus_ok query⟩
  show BASE_SEARCH_URL ++ '?' :: urlencodePair "search_query".data query = _
  unfold urlencodePair
  rw [show quote_plus "search_query".data = "search_query".data from by decide]
  rfl

/-- C7: `search` is deterministic and accumulates no hidden state: the
searcher object is unchanged by a call, and a second call made with the
searcher returned by the first yields the identical complete result. -/
theorem claim_C7 (st : YouTubeSearcher) (fetch : Fetch) (query : List Char) :
    (search st fetch query).2.1 = st ∧
    search (search st fetch query).2.1 fetch query = search st fetch query := by
  refine ⟨search_state st fetch query, ?_⟩
  rw [search_state st fetch query]

/-- C8: the CLI entry point exits with code 0 and prints the URL to stdout
on success; on each failure it exits with code 1, prints nothing to stdout,
and writes the corresponding line to stderr: `Error: <msg>` for search
errors, a newline followed by `Search cancelled by user` for an interrupt,
and `Unexpected error: <msg>` otherwise. -/
theorem claim_C8 (verbose : Bool) (query : List Char) :
    (∀ url, (mainEntry verbose query (SearchCallResult.ok url)).1 = 0 ∧
      (mainEntry verbose query (SearchCallResult.ok url)).2.1 = [url]) ∧
    (∀ m, (mainEntry verbose query (SearchCallResult.ytError m)).1 = 1 ∧
      (mainEntry verbose query (SearchCallResult.ytError m)).2.1 = [] ∧
      (mainEntry verbose query (SearchCallResult.ytError m)).2.2.getLast?
        = some ("Error: ".data ++ m)) ∧
    ((mainEntry verbose query SearchCallResult.keyboardInterrupt).1 = 1 ∧
      (mainEntry verbose query SearchCallResult.keyboardInterrupt).2.1 = [] ∧
      (mainEntry verbose query
          SearchCallResult.keyboardInterrupt).2.2.getLast?
        = some ('\n' :: "Search cancelled by user".data)) ∧
    (∀ m, (mainEntry verbose query (SearchCallResult.unexpected m)).1 = 1 ∧
      (mainEntry verbose query (SearchCallResult.unexpected m)).2.1 = [] ∧
      (mainEntry verbose query (SearchCallResult.unexpected m)).2.2.getLast?
        = some ("Unexpected error: ".data ++ m)) := by
  cases verbose <;> simp [mainEntry]

/-- C9: the third pattern `/watch?v=…` never determines the extraction
result: the three-pattern extractor is extensionally equal to the extractor
using only the first two patterns, because every match of the third pattern
contains a match of the second. -/
theorem claim_C9 (html : List Char) :
    extract_first_video_id html = extractTwoPatterns html := by
  unfold extract_first_video_id extractTwoPatterns
  cases h1 : scanFirst pat1Lead pat1Trail html with
  | some ids => rfl
  | none =>
    cases h2 : scanFirst pat2Lead [] html with
    | some ids => rfl
    | none => rw [scanFirst_pat3_none html h2]

/-- C10: the patterns have no boundary anchor after the capture: when
`watch?v=` is followed by 12 or more identifier characters (and the
JSON-style pattern has no match, with no earlier `watch?v=` match),
extraction succeeds and returns the first 11 characters of the run — a
proper prefix of the longer token. -/
theorem claim_C10 (pre run post html : List Char)
    (hhtml : html = pre ++ pat2Lead ++ run ++ post)
    (h1 : scanFirst pat1Lead pat1Trail html = none)
    (hall : run.all isIdChar = true)
    (hlen : 12 ≤ run.length)
    (hpre : ∀ j, j < pre.length → matchPatAt pat2Lead [] (html.drop j) = none) :
    extract_first_video_id html = some (run.take 11) ∧ run.take 11 ≠ run := by
  constructor
  · have hdrop : html.drop pre.length = pat2Lead ++ (run ++ post) := by
      rw [hhtml, List.append_assoc, List.append_assoc, List.drop_left]
    have hmatch : matchPatAt pat2Lead [] (html.drop pre.length)
        = some (run.take 11) := by
      rw [hdrop]
      unfold matchPatAt
      rw [stripLit_self]
      simp only [takeIds_append 11 run post hall (by omega), stripLit_nil]
    have h2 := scanFirst_leftmost html pre.length (run.take 11) pat2Lead []
      hpre hmatch
    unfold extract_first_video_id
    rw [h1, h2]
  · intro heq
    have := congrArg List.length heq
    rw [List.length_take] at this
    omega

/-- Witness for C10: a 12-character run after `watch?v=` yields its first
11 characters. -/
theorem claim_C10_witness :
    extract_first_video_id "x watch?v=abcdefghijkl z".data
      = some ("abcdefghijkl".data.take 11) ∧
    "abcdefghijkl".data.take 11 ≠ "abcdefghijkl".data :=
  claim_C10 "x ".data "abcdefghijkl".data " z".data
    "x watch?v=abcdefghijkl z".data (by decide) (by decide) (by decide)
    (by decide) (by decide)

end YtUrl
